import Mathlib

/-!
Verification of `src/security/luks_encrypt_drive.py` (the LUKS drive
provisioning workflow) against its natural-language specification.

The script is a straight-line orchestrator around subprocess invocations.
We embed it shallowly:

* every observable action (subprocess invocation, log line, interactive
  prompt) becomes an `Event`; an f-string that interpolates the generated
  passphrase is represented as a list of fragments in which the passphrase
  is the distinguished fragment `Frag.secret` (its concrete text is opaque
  to the workflow: the code only ever splices it whole);
* the outcome of the process is an `Outcome` (normal completion,
  `SystemExit` with an exit code and message, or re-exec of the
  interpreter);
* everything the script observes from the outside world (command-line
  flags, uid, results of the probing subprocesses, the operator reply
  at the confirmation gate, filesystem facts) is a field of `Env`;
* each method of `LuksEncryptor` becomes a function
  `Env → List Event × Option Outcome` (`none` = fall through to the next
  statement of `main`, `some o` = `SystemExit`), and `main` is the
  sequential composition of those steps in source order.

Pure helpers (`str.isalnum`, `str.strip`, path normalisation) are
translated separately and are shared by the step functions.
-/

/-! ## Python string primitives -/

/-- The Python `str.isalnum` test on a single character.  CPython consults the
Unicode database (categories L*, Nd, Nl, No and the Numeric property).
We model the code points below U+0100 — ASCII plus the Latin-1
supplement — which is the fragment our theorems exercise: ASCII
alphanumerics, the Latin-1 letters (ª µ º À–Ö Ø–ö ø–ÿ, excluding the
operators × U+00D7 and ÷ U+00F7), and the Latin-1 numeric characters
(² ³ ¹ ¼ ½ ¾). -/
def pyIsAlnum (c : Char) : Bool :=
  c.isAlphanum ||
  (c.toNat == 0xAA) || (c.toNat == 0xB5) || (c.toNat == 0xBA) ||
  (c.toNat == 0xB2) || (c.toNat == 0xB3) || (c.toNat == 0xB9) ||
  (0xBC ≤ c.toNat && c.toNat ≤ 0xBE) ||
  (0xC0 ≤ c.toNat && c.toNat ≤ 0xFF && c.toNat != 0xD7 && c.toNat != 0xF7)

/-- The Python notion of whitespace for `str.strip` (restricted to the
ASCII range: space, tab, newline, carriage return, vertical tab, form
feed; the Unicode space characters are not exercised here). -/
def pyIsSpace (c : Char) : Bool :=
  c == ' ' || c == '\t' || c == '\n' || c == '\r' ||
  c.toNat == 11 || c.toNat == 12

/-- The Python `str.strip()`: drop leading and trailing whitespace. -/
def pyStrip (s : String) : String :=
  String.mk (((s.data.dropWhile pyIsSpace).reverse.dropWhile pyIsSpace).reverse)

/-- Split a character list at every `/` (the pieces between
separators, like `str.split("/")`). -/
def splitSlash : List Char → List (List Char)
  | [] => [[]]
  | c :: rest =>
    match splitSlash rest with
    | [] => [[]]
    | w :: ws => if c = '/' then [] :: w :: ws else (c :: w) :: ws

/-- Re-join path components with single separators. -/
def joinSlash : List (List Char) → List Char
  | [] => []
  | [w] => w
  | w :: ws => w ++ '/' :: joinSlash ws

/-- Normalisation performed by `pathlib.Path` on an absolute POSIX path
string: collapse repeated separators and drop a trailing separator
(`Path("/mnt/")` prints as `/mnt`). -/
def pathNorm (s : String) : String :=
  String.mk ('/' :: joinSlash ((splitSlash s.data).filter (fun p => p != [])))

/-- The `/` operator of `pathlib.Path` for a single relative segment:
joining with the empty segment leaves the base unchanged
(`Path("/home/u") / "" == Path("/home/u")`). -/
def joinPath (base seg : String) : String :=
  if seg = "" then base else base ++ "/" ++ seg

/-! ## Values derived from the label (`LuksEncryptor.__init__`) -/

/-- `self.crypt_name = f"{label}_crypt"`. -/
def cryptName (label : String) : String := label ++ "_crypt"

/-- `self.mount_point = Path(f"/mnt/{label}")`, as the string the path
prints as. -/
def mountPoint (label : String) : String := pathNorm ("/mnt/" ++ label)

/-- `self.service_name = f"{label}-crypt.service"`. -/
def serviceName (label : String) : String := label ++ "-crypt.service"

/-- `self.key_file = Path("/etc/luks-keys") / f"{label}.key"`
(assigned in `create_keyfile`). -/
def keyfilePath (label : String) : String :=
  "/etc/luks-keys/" ++ label ++ ".key"

/-- The label-syntax check of `_validate_label_safety`:
`all(c.isalnum() or c == "_" for c in label)`. -/
def labelSyntaxOk (label : String) : Bool :=
  label.data.all (fun c => pyIsAlnum c || c == '_')

/-- The character class `[A-Za-z0-9_]` named by the specification
(the Lean functions `Char.isUpper`, `Char.isLower` and `Char.isDigit` are exactly
the ASCII ranges `A-Z`, `a-z` and `0-9`). -/
def specLabelChar (c : Char) : Bool :=
  c.isUpper || c.isLower || c.isDigit || c == '_'

/-! ## Events and outcomes -/

/-- One fragment of a message or argument string: either literal text or
the generated passphrase (`self.pass_phrase`), which the code only ever
splices whole into f-strings and stdin payloads. -/
inductive Frag
  | lit (s : String)
  | secret
deriving DecidableEq, Repr

/-- A string assembled by an f-string: the list of its fragments. -/
abbrev Msg := List Frag

/-- An observable action of the script. -/
inductive Event
  /-- a `subprocess` invocation (`run` / `check_output` / `check_call`)
  with its argument vector and the payload piped to stdin, if any -/
  | proc (argv : List Msg) (stdin : Option Msg)
  /-- a `logger.info` line -/
  | log (m : Msg)
  /-- the `input(...)` prompt -/
  | ask (m : Msg)
deriving DecidableEq, Repr

/-- How the process ends: fell through normally, terminated by
`SystemExit` (exit code and diagnostic message), or replaced itself via
`os.execvp`. -/
inductive Outcome
  | success
  | exited (code : Nat) (msg : String)
  | reexec
deriving DecidableEq, Repr

/-- State of the convenience-symlink location in the home directory of
the calling user (the `self.symlink_path` checked by
`setup_mount_and_symlink`). -/
inductive PathState
  | absent
  | symlinkTo (target : String)
  | regularFile
  | directory
deriving DecidableEq, Repr

/-- `Path.is_symlink()` on the modelled state. -/
def pathIsSymlink : PathState → Bool
  | PathState.symlinkTo _ => true
  | _ => false

/-- `Path.exists()` on the modelled state. -/
def pathExistsB : PathState → Bool
  | PathState.absent => false
  | _ => true

/-! ## The environment observed by one run -/

/-- Everything the script reads from the outside world during one run.
`dev` is the already-resolved device path (`Path(device).resolve()`),
`blkidLabel` is the result of `blkid -L <label>` (`none` models
`CalledProcessError`, i.e. no filesystem carries the label), `uid` is
`os.getuid()`, `mounts` are the `MOUNTPOINT` lines printed by `lsblk`,
`mapperOpen0` tells whether `/dev/mapper/<label>_crypt` is already an
active mapping when the first `open_container` runs, `closeOk1` /
`closeOk2` tell whether the `luksClose` issued by the first / second
`open_container` exits zero (`closeErr1` / `closeErr2` the exception
text otherwise), and `symlinkState` is the state of
`self.symlink_path`.  Privileged subprocesses invoked with `check=True`
on the main path are modelled as succeeding; abort-on-first-failure for
those is proved separately over `runSteps`. -/
structure Env where
  xpwAvailable : Bool
  noReinstall : Bool
  pipOk : Bool
  pipErr : String
  uid : Nat
  dev : String
  label : String
  user : String
  home : String
  dateStr : String
  blkidLabel : Option String
  mountPointExists : Bool
  serviceExists : Bool
  devIsBlock : Bool
  devCritical : Bool
  critPath : String
  devIsLuks : Bool
  confirmInput : String
  lsblkOk : Bool
  mounts : List String
  mapperOpen0 : Bool
  closeOk1 : Bool
  closeErr1 : String
  closeOk2 : Bool
  closeErr2 : String
  symlinkState : PathState
  innerUuid : String
  outerUuid : String

/-! ## The steps of the pipeline (methods of `LuksEncryptor`) -/

/-- `_validate_label_safety`: the syntax check, the `blkid -L` collision
probe, the mount-point and service-unit existence checks, then the
success log line. -/
def validateLabelSafety (env : Env) : List Event × Option Outcome :=
  if labelSyntaxOk env.label = false then
    ([], some (Outcome.exited 1
      ("ERROR: Label \x27" ++ env.label ++
       "\x27 should contain only alphanumeric characters and underscores.")))
  else
    let blkidCall : Event :=
      Event.proc [[Frag.lit "blkid"], [Frag.lit "-L"], [Frag.lit env.label]] none
    let out := (env.blkidLabel.map pyStrip).getD ""
    if out != "" then
      ([blkidCall], some (Outcome.exited 1
        ("ERROR: Filesystem with label \x27" ++ env.label ++
         "\x27 already exists on " ++ out)))
    else if env.mountPointExists then
      ([blkidCall], some (Outcome.exited 1
        ("ERROR: Mount point " ++ mountPoint env.label ++ " already exists")))
    else if env.serviceExists then
      ([blkidCall], some (Outcome.exited 1
        ("ERROR: Systemd service " ++ serviceName env.label ++ " already exists")))
    else
      ([blkidCall,
        Event.log [Frag.lit ("Label validation passed for \x27" ++ env.label ++ "\x27")]],
       none)

/-- `_validate_device_safety`: block-device check, critical-path check,
the `cryptsetup isLuks` probe (success means the device is already a
LUKS container, which aborts), then the success log line. -/
def validateDeviceSafety (env : Env) : List Event × Option Outcome :=
  if env.devIsBlock = false then
    ([], some (Outcome.exited 1
      ("ERROR: " ++ env.dev ++ " does not exist or is not a block device")))
  else if env.devCritical then
    ([], some (Outcome.exited 1
      ("ERROR: Refusing to encrypt " ++ env.dev ++ " — matches critical path " ++
       env.critPath)))
  else
    let probe : Event :=
      Event.proc [[Frag.lit "cryptsetup"], [Frag.lit "isLuks"], [Frag.lit env.dev]] none
    if env.devIsLuks then
      ([probe], some (Outcome.exited 1
        ("ERROR: " ++ env.dev ++ " is already a LUKS container.")))
    else
      ([probe,
        Event.log [Frag.lit ("Device check passed: " ++ env.dev ++ " is safe to encrypt.")]],
       none)

/-- Sequential composition of two traced computations: the second runs
only when the first falls through (`SystemExit` propagation). -/
def andThen (a b : List Event × Option Outcome) : List Event × Option Outcome :=
  match a.2 with
  | some o => (a.1, some o)
  | none => (a.1 ++ b.1, b.2)

/-- The validation performed by `LuksEncryptor.__init__`: label safety
then device safety. -/
def validateStep (env : Env) : List Event × Option Outcome :=
  andThen (validateLabelSafety env) (validateDeviceSafety env)

/-- `generate_passphrase`: abort if `xkcdpass` is unavailable, otherwise
log the freshly generated passphrase and the save-it warning. -/
def generatePassphrase (env : Env) : List Event × Option Outcome :=
  if env.xpwAvailable = false then
    ([], some (Outcome.exited 1
      "xkcdpass not available. Install it with: sudo python3 -m pip install xkcdpass"))
  else
    ([Event.log [Frag.lit "\nGenerated initial passphrase: ", Frag.secret],
      Event.log [Frag.lit "!!! SAVE THIS PASSPHRASE IN A SAFE PLACE !!!\n"]],
     none)

/-- `confirm_destruction`: warn, prompt, and abort with exit code 0
unless the stripped reply is the literal `YES`. -/
def confirmDestruction (env : Env) : List Event × Option Outcome :=
  let warn : Event :=
    Event.log [Frag.lit ("WARNING: This will IRREVERSIBLY DESTROY all data on " ++ env.dev)]
  let prompt : Event := Event.ask [Frag.lit "Type YES in capital letters to continue: "]
  if pyStrip env.confirmInput != "YES" then
    ([warn, prompt, Event.log [Frag.lit "Aborted."]], some (Outcome.exited 0 ""))
  else
    ([warn, prompt], none)

/-- `unmount_drive`: enumerate active mount points with `lsblk` and
lazily unmount each; any `CalledProcessError` inside the `try` block
(modelled by `lsblkOk = false`) aborts. -/
def unmountDrive (env : Env) : List Event × Option Outcome :=
  let head : Event :=
    Event.log [Frag.lit ("Checking for active mounts on " ++ env.dev ++ "...")]
  let call : Event :=
    Event.proc [[Frag.lit "lsblk"], [Frag.lit "-p"], [Frag.lit "-n"], [Frag.lit "-l"],
                [Frag.lit "-o"], [Frag.lit "MOUNTPOINT"], [Frag.lit env.dev]] none
  if env.lsblkOk = false then
    ([head, call], some (Outcome.exited 1
      "ERROR: Failed to verify mount status with lsblk. Aborting."))
  else
    let mps := env.mounts.filter (fun mp => pyStrip mp != "")
    if mps.isEmpty then
      ([head, call, Event.log [Frag.lit "No active mounts found on device."]], none)
    else
      ([head, call,
        Event.log [Frag.lit ("Found " ++ toString mps.length ++
          " active mount(s). Unmounting now...")]] ++
       mps.flatMap (fun mp =>
         [Event.log [Frag.lit ("Unmounting: " ++ mp)],
          Event.proc [[Frag.lit "umount"], [Frag.lit "-l"], [Frag.lit mp]] none]) ++
       [Event.log [Frag.lit "All associated mounts removed."]],
       none)

/-- `format_luks`: `cryptsetup luksFormat` in batch mode, the
passphrase fed over stdin (never as an argument). -/
def formatLuks (env : Env) : List Event × Option Outcome :=
  ([Event.log [Frag.lit "Formatting with LUKS2..."],
    Event.proc [[Frag.lit "cryptsetup"], [Frag.lit "luksFormat"], [Frag.lit "--type"],
                [Frag.lit "luks2"], [Frag.lit "--batch-mode"], [Frag.lit env.dev]]
      (some [Frag.secret, Frag.lit "\n"])],
   none)

/-- The timestamped header-backup path chosen by `backup_luks_header`:
`<home>/backups/<label>-luks-header-<date>.bak`. -/
def backupPath (env : Env) : String :=
  env.home ++ "/backups/" ++ env.label ++ "-luks-header-" ++ env.dateStr ++ ".bak"

/-- `backup_luks_header`: log the destination and invoke
`cryptsetup luksHeaderBackup` (the subsequent `chmod`/`chown` touch no
subprocess and are not traced). -/
def backupLuksHeader (env : Env) : List Event × Option Outcome :=
  ([Event.log [Frag.lit ("Backing up LUKS header to: " ++ backupPath env)],
    Event.proc [[Frag.lit "cryptsetup"], [Frag.lit "luksHeaderBackup"], [Frag.lit env.dev],
                [Frag.lit "--header-backup-file"], [Frag.lit (backupPath env)]] none],
   none)

/-- `open_container`: if a mapping under `crypt` is already active it is
closed first (a failing close is fatal); then the container is opened
with the keyfile as an argument path, or with the passphrase over
stdin. -/
def openContainer (useKeyfile : Bool) (dev crypt kf : String)
    (mapperOpen closeOk : Bool) (closeErr : String) :
    List Event × Option Outcome :=
  let openPart : List Event :=
    if useKeyfile then
      [Event.log [Frag.lit ("Opening container " ++ crypt ++ " with keyfile...")],
       Event.proc [[Frag.lit "cryptsetup"], [Frag.lit "luksOpen"], [Frag.lit dev],
                   [Frag.lit crypt], [Frag.lit "--key-file"], [Frag.lit kf]] none]
    else
      [Event.log [Frag.lit ("Opening container " ++ crypt ++ " with passphrase...")],
       Event.proc [[Frag.lit "cryptsetup"], [Frag.lit "luksOpen"], [Frag.lit dev],
                   [Frag.lit crypt]] (some [Frag.secret, Frag.lit "\n"])]
  if mapperOpen then
    let pre : List Event :=
      [Event.log [Frag.lit ("Container " ++ crypt ++ " is already open → closing it first...")],
       Event.proc [[Frag.lit "cryptsetup"], [Frag.lit "luksClose"], [Frag.lit crypt]] none]
    if closeOk then
      (pre ++ [Event.log [Frag.lit ("Successfully closed existing mapping " ++ crypt)]] ++
        openPart, none)
    else
      (pre, some (Outcome.exited 1
        ("Cannot clean up existing open container: " ++ closeErr)))
  else
    (openPart, none)

/-- The first `open_container(use_keyfile=False)` of `main`: whether the
mapping pre-exists is an environment fact. -/
def openWithPassphrase (env : Env) : List Event × Option Outcome :=
  openContainer false env.dev (cryptName env.label) (keyfilePath env.label)
    env.mapperOpen0 env.closeOk1 env.closeErr1

/-- The second `open_container(use_keyfile=True)` of `main`: by this
point the first open has created the mapping and nothing has closed it,
so `_is_container_open()` finds it active. -/
def openWithKeyfile (env : Env) : List Event × Option Outcome :=
  openContainer true env.dev (cryptName env.label) (keyfilePath env.label)
    true env.closeOk2 env.closeErr2

/-- `create_filesystem`: `mkfs.ext4` labelled with the human label. -/
def createFilesystem (env : Env) : List Event × Option Outcome :=
  ([Event.log [Frag.lit ("Creating ext4 filesystem with label \x27" ++ env.label ++ "\x27...")],
    Event.proc [[Frag.lit "mkfs.ext4"], [Frag.lit "-L"], [Frag.lit env.label],
                [Frag.lit ("/dev/mapper/" ++ cryptName env.label)]] none],
   none)

/-- The traced part of `create_keyfile` (the byte-level artifact is
modelled by `createKeyfile` below). -/
def createKeyfileEvents (env : Env) : List Event × Option Outcome :=
  ([Event.log [Frag.lit ("Created secure keyfile: " ++ keyfilePath env.label)]], none)

/-- `add_keyfile_to_luks`: `cryptsetup luksAddKey` authenticated by the
passphrase over stdin, the keyfile path as an argument. -/
def addKeyfileToLuks (env : Env) : List Event × Option Outcome :=
  ([Event.log [Frag.lit "Adding keyfile as additional unlock slot..."],
    Event.proc [[Frag.lit "cryptsetup"], [Frag.lit "luksAddKey"], [Frag.lit env.dev],
                [Frag.lit (keyfilePath env.label)]]
      (some [Frag.secret, Frag.lit "\n"])],
   none)

/-- The symlink handling at the end of `setup_mount_and_symlink`,
operating on the state of the link location: a pre-existing symlink is
unlinked and replaced, a pre-existing non-symlink path is fatal and is
left untouched, an absent path is simply created. -/
def symlinkReplace (st : PathState) (symPath mp : String) : PathState × Option Outcome :=
  if pathIsSymlink st then
    (PathState.symlinkTo mp, none)
  else if pathExistsB st then
    (st, some (Outcome.exited 1
      ("ERROR: " ++ symPath ++ " already exists and is not a symlink.\n" ++
       "Please remove it manually first.")))
  else
    (PathState.symlinkTo mp, none)

/-- `setup_mount_and_symlink`: mkdir + `mount` + chown/chmod, then the
symlink replacement of `symlinkReplace`. -/
def setupMountAndSymlink (env : Env) : List Event × Option Outcome :=
  let symPath := joinPath env.home env.label
  let pre : List Event :=
    [Event.log [Frag.lit "Mounting filesystem and creating symlink..."],
     Event.proc [[Frag.lit "mount"], [Frag.lit ("/dev/mapper/" ++ cryptName env.label)],
                 [Frag.lit (mountPoint env.label)]] none]
  match (symlinkReplace env.symlinkState symPath (mountPoint env.label)).2 with
  | some o => (pre, some o)
  | none =>
    (pre ++ [Event.log [Frag.lit ("Created symlink: " ++ symPath ++ " → " ++
       mountPoint env.label)]], none)

/-- `add_fstab_entry`: query the inner UUID and append the fstab line
(the file append itself touches no subprocess). -/
def addFstabEntry (env : Env) : List Event × Option Outcome :=
  ([Event.proc [[Frag.lit "blkid"], [Frag.lit "-s"], [Frag.lit "UUID"], [Frag.lit "-o"],
                [Frag.lit "value"], [Frag.lit ("/dev/mapper/" ++ cryptName env.label)]] none,
    Event.log [Frag.lit "Added entry to /etc/fstab"]],
   none)

/-- `create_systemd_service`: query the outer UUID, write the unit file
(its text is modelled by `serviceUnitContent` below), reload and enable
the unit. -/
def createSystemdService (env : Env) : List Event × Option Outcome :=
  ([Event.proc [[Frag.lit "blkid"], [Frag.lit "-s"], [Frag.lit "UUID"], [Frag.lit "-o"],
                [Frag.lit "value"], [Frag.lit env.dev]] none,
    Event.proc [[Frag.lit "systemctl"], [Frag.lit "daemon-reload"]] none,
    Event.proc [[Frag.lit "systemctl"], [Frag.lit "enable"],
                [Frag.lit (serviceName env.label)]] none,
    Event.log [Frag.lit ("Created and enabled systemd service " ++ serviceName env.label)]],
   none)

/-- `cleanup`: unmount the setup-time mount and close the mapping. -/
def cleanupStep (env : Env) : List Event × Option Outcome :=
  ([Event.proc [[Frag.lit "umount"], [Frag.lit (mountPoint env.label)]] none,
    Event.proc [[Frag.lit "cryptsetup"], [Frag.lit "luksClose"],
                [Frag.lit (cryptName env.label)]] none,
    Event.log [Frag.lit "Temporary mount and LUKS mapping closed."]],
   none)

/-- `print_setup_summary`: the final report; the passphrase line is the
second and last place the passphrase is displayed. -/
def printSetupSummary (env : Env) : List Event × Option Outcome :=
  ([Event.log [Frag.lit "\n=== SETUP COMPLETE ==="],
    Event.log [Frag.lit ("Device encrypted:           " ++ env.dev)],
    Event.log [Frag.lit ("Filesystem label:           " ++ env.label)],
    Event.log [Frag.lit "Passphrase (save it!):      ", Frag.secret],
    Event.log [Frag.lit ("Keyfile:                    " ++ keyfilePath env.label)],
    Event.log [Frag.lit ("LUKS header backup:         " ++ backupPath env)],
    Event.log [Frag.lit ("Mountpoint:                 " ++ mountPoint env.label)],
    Event.log [Frag.lit ("Symlink in home:            " ++ joinPath env.home env.label)],
    Event.log [Frag.lit ("Systemd service:            " ++ env.label ++
      "-crypt.service (enabled)")],
    Event.log [Frag.lit "fstab entry added (noauto)"],
    Event.log [Frag.lit ("To mount now:\n   sudo systemctl start " ++
      serviceName env.label)]],
   none)

/-! ## The pipeline of `main` -/

/-- The steps of `main`, named after the methods they invoke
(`validate` is the validation performed by the `LuksEncryptor`
constructor). -/
inductive Step
  | validate
  | generatePassphrase
  | confirmDestruction
  | unmountDrive
  | formatLuks
  | backupLuksHeader
  | openWithPassphrase
  | createFilesystem
  | createKeyfile
  | addKeyfileToLuks
  | openWithKeyfile
  | setupMountAndSymlink
  | addFstabEntry
  | createSystemdService
  | cleanup
  | printSummary
deriving DecidableEq, Repr

/-- The statement sequence of `main` after the root check, in source
order. -/
def mainSteps : List Step :=
  [Step.validate, Step.generatePassphrase, Step.confirmDestruction, Step.unmountDrive,
   Step.formatLuks, Step.backupLuksHeader, Step.openWithPassphrase, Step.createFilesystem,
   Step.createKeyfile, Step.addKeyfileToLuks, Step.openWithKeyfile,
   Step.setupMountAndSymlink, Step.addFstabEntry, Step.createSystemdService,
   Step.cleanup, Step.printSummary]

/-- Dispatch from a step name to its behaviour. -/
def stepFun : Step → Env → List Event × Option Outcome
  | Step.validate => validateStep
  | Step.generatePassphrase => generatePassphrase
  | Step.confirmDestruction => confirmDestruction
  | Step.unmountDrive => unmountDrive
  | Step.formatLuks => formatLuks
  | Step.backupLuksHeader => backupLuksHeader
  | Step.openWithPassphrase => openWithPassphrase
  | Step.createFilesystem => createFilesystem
  | Step.createKeyfile => createKeyfileEvents
  | Step.addKeyfileToLuks => addKeyfileToLuks
  | Step.openWithKeyfile => openWithKeyfile
  | Step.setupMountAndSymlink => setupMountAndSymlink
  | Step.addFstabEntry => addFstabEntry
  | Step.createSystemdService => createSystemdService
  | Step.cleanup => cleanupStep
  | Step.printSummary => printSetupSummary

/-- Sequential execution with `SystemExit` propagation: a step that
returns `some o` terminates the run, a step that returns `none` falls
through to the next one. -/
def runSeq (env : Env) : List Step → List Event × Outcome
  | [] => ([], Outcome.success)
  | s :: rest =>
    match stepFun s env with
    | (es, some o) => (es, o)
    | (es, none) =>
      let r := runSeq env rest
      (es ++ r.1, r.2)

/-- `main`: the dependency-recovery branch for a missing `xkcdpass`
(install and re-exec, guarded by `--no-reinstall`), the root check, and
then the pipeline. -/
def mainRun (env : Env) : List Event × Outcome :=
  if env.xpwAvailable = false then
    if env.noReinstall then
      ([], Outcome.exited 1
        ("xkcdpass still not importable after install attempt. " ++
         "Install manually with: \x27sudo python3 -m pip install xkcdpass\x27"))
    else
      let pre : List Event :=
        [Event.log [Frag.lit "xkcdpass not found → installing it now..."],
         Event.proc [[Frag.lit "python3"], [Frag.lit "-m"], [Frag.lit "pip"],
                     [Frag.lit "install"], [Frag.lit "xkcdpass"]] none]
      if env.pipOk then
        (pre ++ [Event.log [Frag.lit "xkcdpass installed. Restarting script..."]],
         Outcome.reexec)
      else
        (pre, Outcome.exited 1
          ("\nERROR: Failed to install xkcdpass (reason: " ++ env.pipErr ++ ")\n" ++
           "Manual installation required with: \x27sudo python3 -m pip install xkcdpass\x27\n"))
  else if env.uid != 0 then
    ([], Outcome.exited 1 "ERROR: This script must be run as root (sudo python3 ...)")
  else
    runSeq env mainSteps

/-- Abort-on-first-failure semantics over the step names alone: `fails
s` models step `s` raising `SystemExit` (a `check=True` subprocess
exiting nonzero, or an intrinsic abort).  The result is the list of
steps that actually start executing. -/
def runSteps (fails : Step → Bool) : List Step → List Step
  | [] => []
  | s :: rest => if fails s then [s] else s :: runSteps fails rest

/-- The pipeline as the specification lists it (no unmount step between
the confirmation gate and the format step). -/
def specSteps : List Step :=
  [Step.validate, Step.generatePassphrase, Step.confirmDestruction,
   Step.formatLuks, Step.backupLuksHeader, Step.openWithPassphrase, Step.createFilesystem,
   Step.createKeyfile, Step.addKeyfileToLuks, Step.openWithKeyfile,
   Step.setupMountAndSymlink, Step.addFstabEntry, Step.createSystemdService,
   Step.cleanup, Step.printSummary]

/-! ## The keyfile artifact (`create_keyfile`) -/

/-- The on-disk keyfile as `create_keyfile` leaves it: its path, its
bytes, its permission bits and its owner. -/
structure Keyfile where
  path : String
  content : List Nat
  mode : Nat
  uid : Nat
  gid : Nat
deriving DecidableEq, Repr

/-- `create_keyfile`: write `secrets.token_bytes(512)` to
`/etc/luks-keys/<label>.key`, `chmod 0o600`, `chown` to root.
`tokenBytes` is the entropy source (`secrets.token_bytes`), passed as an
oracle that yields the requested number of bytes. -/
def createKeyfile (label : String) (tokenBytes : Nat → List Nat) : Keyfile :=
  { path := keyfilePath label
    content := tokenBytes 512
    mode := 0o600
    uid := 0
    gid := 0 }

/-! ## The systemd unit text (`create_systemd_service`) -/

/-- The unit file text written by `create_systemd_service`, after
`textwrap.dedent`: a function of the label, the keyfile path, the
stable device path `/dev/disk/by-uuid/<uuid>`, the mapper name and the
mount point.  The literal chunks are split at every interpolation point
of the source f-string (and around the `TimeoutStartSec` directive) so
that theorems can address the pieces; their concatenation is exactly
the dedented source text. -/
def serviceUnitContent (label kf sd cn mp : String) : String :=
  "[Unit]\nDescription=Unlock and Mount LUKS " ++ label ++
  " drive\nAfter=local-fs-pre.target\n\n[Service]\nType=oneshot\nRemainAfterExit=yes\n" ++
  "TimeoutStartSec=30" ++ "\n\n" ++
  "ExecStart=/bin/sh -c \x27\\\n    cryptsetup luksOpen --key-file \"" ++ kf ++
  "\"" ++ " \\\n        \"" ++ sd ++ "\" \"" ++ cn ++
  "\" && \\\n    udevadm settle && mount \"" ++ mp ++
  "\"\x27\n\nExecStop=/bin/sh -c \x27\\\n    umount \"" ++ mp ++
  "\" || true; \\\n    cryptsetup luksClose \"" ++ cn ++
  "\" || true\x27\n\n[Install]\nWantedBy=multi-user.target\n"

/-- The unit text as written for a given environment: the stable device
is the outer UUID under `/dev/disk/by-uuid/`. -/
def serviceUnitFor (env : Env) : String :=
  serviceUnitContent env.label (keyfilePath env.label)
    ("/dev/disk/by-uuid/" ++ env.outerUuid) (cryptName env.label) (mountPoint env.label)

/-! ## Substring search (for claims about the unit text) -/

/-- Literal list-prefix test. -/
def isPrefixL : List Char → List Char → Bool
  | [], _ => true
  | _ :: _, [] => false
  | a :: as, b :: bs => a == b && isPrefixL as bs

/-- Does `p` occur as a contiguous sublist of `s`? -/
def occursInL (p : List Char) : List Char → Bool
  | [] => isPrefixL p []
  | s@(_ :: rest) => isPrefixL p s || occursInL p rest

/-- Does string `pat` occur as a substring of `s`? -/
def occursIn (pat s : String) : Bool := occursInL pat.data s.data

/-! ## Predicates over events -/

/-- Does this message mention the generated passphrase? -/
def mentionsSecret (m : Msg) : Bool := m.any (fun f => f == Frag.secret)

/-- Is this a log line that displays the passphrase? -/
def secretLog : Event → Bool
  | Event.log m => mentionsSecret m
  | _ => false

/-- Is every fragment of every argument of this event free of the
passphrase?  (stdin payloads are deliberately not constrained: feeding
the passphrase over stdin is the sanctioned channel.) -/
def argvSecretFree : Event → Bool
  | Event.proc argv _ => argv.all (fun m => !mentionsSecret m)
  | _ => true

/-- Is this event an invocation `cryptsetup <sub> ...`? -/
def isCryptsetupCmd (sub : String) : Event → Bool
  | Event.proc argv _ => argv.take 2 == [[Frag.lit "cryptsetup"], [Frag.lit sub]]
  | _ => false

/-- How many passphrase-displaying log lines a step emits when it falls
through (used to account for the whole pipeline). -/
def secretLogsOf : Step → Nat
  | Step.generatePassphrase => 1
  | Step.printSummary => 1
  | _ => 0

/-! ## Concrete environments for witnesses and counterexamples -/

/-- A fully healthy run: `xkcdpass` importable, running as root, label
`data` on `/dev/sdd`, no collisions, operator types `YES`, no stale
mapping, symlink location absent. -/
def envOk : Env :=
  { xpwAvailable := true, noReinstall := false, pipOk := true, pipErr := ""
    uid := 0, dev := "/dev/sdd", label := "data", user := "alice"
    home := "/home/alice", dateStr := "2026-02-03", blkidLabel := none
    mountPointExists := false, serviceExists := false, devIsBlock := true
    devCritical := false, critPath := "", devIsLuks := false
    confirmInput := "YES", lsblkOk := true, mounts := []
    mapperOpen0 := false, closeOk1 := true, closeErr1 := ""
    closeOk2 := true, closeErr2 := "", symlinkState := PathState.absent
    innerUuid := "1111", outerUuid := "2222" }

/-- The healthy run, except that the operator answers `" YES"` (leading
space: not the exact literal). -/
def envSpacedYes : Env := { envOk with confirmInput := " YES" }

/-- The healthy run with the empty label. -/
def envEmptyLabel : Env := { envOk with label := "" }

/-- The empty label where additionally the computed mount point `/mnt`
already exists. -/
def envEmptyLabelMnt : Env := { envEmptyLabel with mountPointExists := true }

/-- The healthy run, except invoked by an unprivileged user. -/
def envNotRoot : Env := { envOk with uid := 1000 }

/-! ## Claims C7, C8, C9, C10 -/

/-- C7: in `MountAndLink`, a pre-existing symlink at the convenience
location is replaced by a fresh symlink to the mount point; a
pre-existing non-symlink path (regular file or directory) makes the
operation fail fatally with the path left on disk unchanged. -/
theorem claim7_theorem (st : PathState) (symPath mp : String) :
    (pathIsSymlink st = true →
      symlinkReplace st symPath mp = (PathState.symlinkTo mp, none)) ∧
    (pathIsSymlink st = false → pathExistsB st = true →
      symlinkReplace st symPath mp =
        (st, some (Outcome.exited 1
          ("ERROR: " ++ symPath ++ " already exists and is not a symlink.\n" ++
           "Please remove it manually first.")))) := by
  constructor
  · intro h
    simp [symlinkReplace, h]
  · intro h h2
    simp [symlinkReplace, h, h2]

/-- C7 witness: a symlink gets replaced; a regular file aborts and is
left in place. -/
theorem claim7_witness :
    symlinkReplace (PathState.symlinkTo "/old") "/home/alice/data" "/mnt/data" =
      (PathState.symlinkTo "/mnt/data", none) ∧
    symlinkReplace PathState.regularFile "/home/alice/data" "/mnt/data" =
      (PathState.regularFile, some (Outcome.exited 1
        ("ERROR: /home/alice/data already exists and is not a symlink.\n" ++
         "Please remove it manually first."))) :=
  ⟨(claim7_theorem (PathState.symlinkTo "/old") "/home/alice/data" "/mnt/data").1 rfl,
   (claim7_theorem PathState.regularFile "/home/alice/data" "/mnt/data").2 rfl rfl⟩

/-- C8: `CreateKeyfile` writes `/etc/luks-keys/<label>.key` containing
exactly 512 random bytes, mode `0o600`, owned by `uid 0` / `gid 0`. -/
theorem claim8_theorem (label : String) (tokenBytes : Nat → List Nat)
    (h : ∀ n, (tokenBytes n).length = n) :
    (createKeyfile label tokenBytes).path = "/etc/luks-keys/" ++ label ++ ".key" ∧
    (createKeyfile label tokenBytes).content.length = 512 ∧
    (createKeyfile label tokenBytes).mode = 0o600 ∧
    (createKeyfile label tokenBytes).uid = 0 ∧
    (createKeyfile label tokenBytes).gid = 0 := by
  refine ⟨rfl, ?_, rfl, rfl, rfl⟩
  simp [createKeyfile, h]

/-- C8 witness: the keyfile for label `vault` with a concrete entropy
source. -/
theorem claim8_witness :
    (∀ n, (List.replicate n 0).length = n) ∧
    (createKeyfile "vault" (fun n => List.replicate n 0)).path = "/etc/luks-keys/vault.key" ∧
    (createKeyfile "vault" (fun n => List.replicate n 0)).content.length = 512 := by
  have h := claim8_theorem "vault" (fun n => List.replicate n 0)
    (fun n => List.length_replicate ..)
  exact ⟨fun n => List.length_replicate .., h.1, h.2.1⟩

/-- C9: when `xkcdpass` is importable and the invoking uid is nonzero,
`main` terminates with exit code 1 and the root diagnostic before any
validation or subprocess: the event trace is empty. -/
theorem claim9_theorem (env : Env) (hx : env.xpwAvailable = true) (hu : env.uid ≠ 0) :
    mainRun env =
      ([], Outcome.exited 1 "ERROR: This script must be run as root (sudo python3 ...)") := by
  simp [mainRun, hx, hu]

/-- C9 witness: the healthy environment run by uid 1000. -/
theorem claim9_witness :
    mainRun envNotRoot =
      ([], Outcome.exited 1 "ERROR: This script must be run as root (sudo python3 ...)") :=
  claim9_theorem envNotRoot rfl (by decide)

/-- C10: the empty label passes the syntax check vacuously, derives
crypt name `_crypt` and mount point `/mnt`, and label validation
proceeds past the syntax stage: it issues the `blkid` collision probe,
and when `/mnt` already exists it is the mount-point collision check
(not the syntax check) that rejects. -/
theorem claim10_theorem :
    labelSyntaxOk "" = true ∧
    cryptName "" = "_crypt" ∧
    mountPoint "" = "/mnt" ∧
    (validateLabelSafety envEmptyLabel).1 =
      [Event.proc [[Frag.lit "blkid"], [Frag.lit "-L"], [Frag.lit ""]] none,
       Event.log [Frag.lit "Label validation passed for \x27\x27"]] ∧
    validateLabelSafety envEmptyLabelMnt =
      ([Event.proc [[Frag.lit "blkid"], [Frag.lit "-L"], [Frag.lit ""]] none],
       some (Outcome.exited 1 "ERROR: Mount point /mnt already exists")) := by
  exact ⟨rfl, rfl, by decide, by decide, by decide⟩

/-! ## Claim C5 -/

/-- C5: when `Open` finds a mapping under the crypt name already active,
a `luksClose` of that mapping occurs before any `luksOpen` in the trace
(and the open does occur); when that close fails, `Open` aborts fatally
and no `luksOpen` is ever issued. -/
theorem claim5_theorem (dev crypt kf closeErr : String) (useKeyfile closeOk : Bool) :
    (if closeOk then
      (openContainer useKeyfile dev crypt kf true closeOk closeErr).2 = none ∧
      ((openContainer useKeyfile dev crypt kf true closeOk closeErr).1.takeWhile
        (fun e => !isCryptsetupCmd "luksOpen" e)).any (isCryptsetupCmd "luksClose") = true ∧
      (openContainer useKeyfile dev crypt kf true closeOk closeErr).1.any
        (isCryptsetupCmd "luksOpen") = true
    else
      (openContainer useKeyfile dev crypt kf true closeOk closeErr).2 =
        some (Outcome.exited 1 ("Cannot clean up existing open container: " ++ closeErr)) ∧
      (openContainer useKeyfile dev crypt kf true closeOk closeErr).1.all
        (fun e => !isCryptsetupCmd "luksOpen" e) = true) := by
  have h1 : (Frag.lit "luksClose" == Frag.lit "luksOpen") = false := by decide
  have h2 : (Frag.lit "cryptsetup" == Frag.lit "cryptsetup") = true := by decide
  cases closeOk <;> cases useKeyfile <;>
    simp [openContainer, isCryptsetupCmd, List.takeWhile, h1, h2]

/-! ## Claim C1 -/

/-- Every character of the class `[A-Za-z0-9_]` named by the
specification satisfies the per-character test of the code (`isalnum`
or underscore). -/
theorem specLabelChar_subset (c : Char) (h : specLabelChar c = true) :
    (pyIsAlnum c || c == '_') = true := by
  simp only [specLabelChar, Bool.or_eq_true] at h
  simp only [pyIsAlnum, Bool.or_eq_true, Char.isAlphanum, Char.isAlpha]
  tauto

/-- C1 (amended): every label whose characters all lie in `[A-Za-z0-9_]`
passes the syntax check, and a label containing a character that is
neither alphanumeric in the Unicode-aware sense of Python nor an
underscore fails it.  (The converse in the claim — that every character outside
`[A-Za-z0-9_]` is rejected — is refuted by `claim1_counterexample`.) -/
theorem claim1_theorem (label : String) :
    ((∀ c ∈ label.data, specLabelChar c = true) → labelSyntaxOk label = true) ∧
    (∀ c ∈ label.data, pyIsAlnum c = false → c ≠ '_' → labelSyntaxOk label = false) := by
  constructor
  · intro h
    simp only [labelSyntaxOk, List.all_eq_true]
    intro c hc
    exact specLabelChar_subset c (h c hc)
  · intro c hc h1 h2
    have : ¬ (label.data.all (fun c => pyIsAlnum c || c == '_') = true) := by
      simp only [List.all_eq_true]
      intro H
      have hcc := H c hc
      simp [h1] at hcc
      exact h2 hcc
    simpa [labelSyntaxOk] using Bool.not_eq_true _ |>.mp this

/-- C1 counterexample: `é` lies outside `[A-Za-z0-9_]`, yet the label
`"é"` passes the syntax check (`str.isalnum` is Unicode-aware), so the
claim as stated is false. -/
theorem claim1_counterexample :
    specLabelChar 'é' = false ∧ pyIsAlnum 'é' = true ∧ labelSyntaxOk "é" = true :=
  ⟨by decide, by decide, by decide⟩

/-- C1 witness: an all-`[A-Za-z0-9_]` label passes; a label with `!`
fails. -/
theorem claim1_witness :
    labelSyntaxOk "ab_1" = true ∧ labelSyntaxOk "a!" = false := by
  have h1 := claim1_theorem "ab_1"
  have h2 := claim1_theorem "a!"
  exact ⟨h1.1 (by decide), h2.2 '!' (by decide) (by decide) (by decide)⟩

/-! ## Claim C3 -/

/-- A list is a prefix of itself followed by anything. -/
theorem isPrefixL_append_self (p t : List Char) : isPrefixL p (p ++ t) = true := by
  induction p with
  | nil => rfl
  | cons a as ih => simp [isPrefixL, ih]

/-- Prefix testing is preserved under a common leading chunk. -/
theorem isPrefixL_append_both (a s t : List Char) (h : isPrefixL s t = true) :
    isPrefixL (a ++ s) (a ++ t) = true := by
  induction a with
  | nil => simpa using h
  | cons b bs ih => simp [isPrefixL, ih]

/-- An immediate prefix occurs as a substring. -/
theorem occursInL_head (p s : List Char) (h : isPrefixL p s = true) :
    occursInL p s = true := by
  cases s with
  | nil => simpa [occursInL] using h
  | cons b bs => simp [occursInL, h]

/-- Occurrence is preserved when material is prepended. -/
theorem occursInL_append_left (p x s : List Char) (h : occursInL p s = true) :
    occursInL p (x ++ s) = true := by
  induction x with
  | nil => simpa using h
  | cons a as ih => simp [occursInL, ih]

/-- C3 (amended): the unit text sets the overall start timeout
`TimeoutStartSec=30`, and its start action begins directly with the
keyfile unlock — `ExecStart=` is immediately followed by the
`/bin/sh -c` command whose first word pair is `cryptsetup luksOpen`
(no device-wait loop precedes the unlock; see
`claim3_counterexample`). -/
theorem claim3_theorem (label kf sd cn mp : String) :
    occursIn "TimeoutStartSec=30" (serviceUnitContent label kf sd cn mp) = true ∧
    occursIn ("ExecStart=/bin/sh -c \x27\\\n    cryptsetup luksOpen --key-file \"" ++ kf ++ "\"")
      (serviceUnitContent label kf sd cn mp) = true := by
  constructor
  · simp only [occursIn, serviceUnitContent, String.data_append, List.append_assoc]
    apply occursInL_append_left
    apply occursInL_append_left
    apply occursInL_append_left
    exact occursInL_head _ _ (isPrefixL_append_self _ _)
  · simp only [occursIn, serviceUnitContent, String.data_append, List.append_assoc]
    apply occursInL_append_left
    apply occursInL_append_left
    apply occursInL_append_left
    apply occursInL_append_left
    apply occursInL_append_left
    apply occursInL_head
    apply isPrefixL_append_both
    apply isPrefixL_append_both
    exact isPrefixL_append_self _ _

set_option maxRecDepth 100000 in
/-- C3 counterexample: the unit text written for the healthy run
contains no shell loop construct (`while`, `until`, `for`) and no
`sleep`, and its start action begins directly with
`cryptsetup luksOpen` — there is no bounded device-wait retry loop
before unlocking, so the claim as stated is false; the only bound is
the unit-level `TimeoutStartSec=30`. -/
theorem claim3_counterexample :
    occursIn "while" (serviceUnitFor envOk) = false ∧
    occursIn "until" (serviceUnitFor envOk) = false ∧
    occursIn "sleep" (serviceUnitFor envOk) = false ∧
    occursIn "for" (serviceUnitFor envOk) = false ∧
    occursIn "ExecStart=/bin/sh -c \x27\\\n    cryptsetup luksOpen" (serviceUnitFor envOk) = true ∧
    occursIn "TimeoutStartSec=30" (serviceUnitFor envOk) = true := by
  exact ⟨by decide, by decide, by decide, by decide, by decide, by decide⟩

/-! ## Claim C4 -/

/-- Abort-on-first-failure, characterised equationally: the executed
steps are the failure-free leading segment of the pipeline, plus the
first failing step (which starts and aborts the run). -/
theorem runSteps_eq (fails : Step → Bool) (l : List Step) :
    runSteps fails l =
      l.takeWhile (fun s => !fails s) ++ (l.dropWhile (fun s => !fails s)).take 1 := by
  induction l with
  | nil => rfl
  | cons s rest ih =>
    cases h : fails s <;> simp [runSteps, List.takeWhile_cons, List.dropWhile_cons, h, ih]

/-- C4 (amended): the pipeline of `main` is the fixed 16-step sequence
with `UnmountDrive` between `ConfirmDestruction` and `Format` (the step
the claimed list omits), and a failure of any step aborts the run
before any later step starts. -/
theorem claim4_theorem :
    mainSteps =
      [Step.validate, Step.generatePassphrase, Step.confirmDestruction, Step.unmountDrive,
       Step.formatLuks, Step.backupLuksHeader, Step.openWithPassphrase, Step.createFilesystem,
       Step.createKeyfile, Step.addKeyfileToLuks, Step.openWithKeyfile,
       Step.setupMountAndSymlink, Step.addFstabEntry, Step.createSystemdService,
       Step.cleanup, Step.printSummary] ∧
    ∀ fails : Step → Bool,
      runSteps fails mainSteps =
        mainSteps.takeWhile (fun s => !fails s) ++
          (mainSteps.dropWhile (fun s => !fails s)).take 1 :=
  ⟨rfl, fun fails => runSteps_eq fails mainSteps⟩

/-- C4 counterexample: a failure-free run executes `UnmountDrive`, a
step interposed between the confirmation gate and the format step that
the claimed pipeline does not contain, so the executed sequence is not
the claimed sequence. -/
theorem claim4_counterexample :
    runSteps (fun _ => false) mainSteps ≠ specSteps ∧
    Step.unmountDrive ∈ runSteps (fun _ => false) mainSteps ∧
    Step.unmountDrive ∉ specSteps := by
  refine ⟨by decide, by decide, by decide⟩

/-! ## Trace-level lemmas for claims C2 and C6 -/

/-- A literal fragment never equals the passphrase fragment. -/
theorem frag_lit_beq_secret (s : String) : (Frag.lit s == Frag.secret) = false := by
  rw [beq_eq_false_iff_ne]
  simp

/-- `andThen` preserves a pointwise property of the traces. -/
theorem andThen_all (P : Event → Bool) (a b : List Event × Option Outcome)
    (ha : a.1.all P = true) (hb : b.1.all P = true) :
    ((andThen a b).1.all P) = true := by
  cases h : a.2 <;> simp [andThen, h, List.all_append, ha, hb]

/-- Label validation never mentions the passphrase in an argument
vector. -/
theorem vls_argvSafe (env : Env) : ((validateLabelSafety env).1.all argvSecretFree) = true := by
  simp only [validateLabelSafety]
  repeat' split
  all_goals simp [argvSecretFree, mentionsSecret]

/-- Device validation never mentions the passphrase in an argument
vector. -/
theorem vds_argvSafe (env : Env) : ((validateDeviceSafety env).1.all argvSecretFree) = true := by
  simp only [validateDeviceSafety]
  repeat' split
  all_goals simp [argvSecretFree, mentionsSecret]

/-- Label validation displays no passphrase log line. -/
theorem vls_secretFilter (env : Env) :
    ((validateLabelSafety env).1.filter secretLog) = [] := by
  simp only [validateLabelSafety]
  repeat' split
  all_goals simp [secretLog, mentionsSecret]

/-- Device validation displays no passphrase log line. -/
theorem vds_secretFilter (env : Env) :
    ((validateDeviceSafety env).1.filter secretLog) = [] := by
  simp only [validateDeviceSafety]
  repeat' split
  all_goals simp [secretLog, mentionsSecret]

/-- The symlink logic never terminates the process with a success
outcome. -/
theorem symlinkReplace_noSuccess (st : PathState) (sp mp : String) (o : Outcome)
    (h : (symlinkReplace st sp mp).2 = some o) : o ≠ Outcome.success := by
  simp only [symlinkReplace] at h
  repeat' split at h
  all_goals (intro hc; subst hc; simp_all)

/-- No step of the pipeline ever places the passphrase into a
subprocess argument vector, in any environment. -/
theorem step_argvSafe (s : Step) (env : Env) :
    ((stepFun s env).1.all argvSecretFree) = true := by
  have hm : ∀ mps : List String,
      ((mps.flatMap (fun mp =>
        [Event.log [Frag.lit ("Unmounting: " ++ mp)],
         Event.proc [[Frag.lit "umount"], [Frag.lit "-l"], [Frag.lit mp]] none])).all
        argvSecretFree) = true := by
    intro mps
    induction mps with
    | nil => rfl
    | cons mp rest ih => simp [argvSecretFree, mentionsSecret, ih]
  cases s
  case validate => exact andThen_all _ _ _ (vls_argvSafe env) (vds_argvSafe env)
  all_goals
    simp only [stepFun, generatePassphrase, confirmDestruction, unmountDrive, formatLuks,
      backupLuksHeader, openWithPassphrase, openWithKeyfile, openContainer, createFilesystem,
      createKeyfileEvents, addKeyfileToLuks, setupMountAndSymlink, symlinkReplace,
      addFstabEntry, createSystemdService, cleanupStep, printSetupSummary]
  all_goals repeat' split
  all_goals simp_all [argvSecretFree, mentionsSecret, List.all_append, hm]

/-- No step terminates the run with a success outcome: `SystemExit`
always carries an exit code. -/
theorem step_noSuccess (s : Step) (env : Env) :
    (stepFun s env).2 ≠ some Outcome.success := by
  have hv : ∀ e : Env, (validateLabelSafety e).2 ≠ some Outcome.success := by
    intro e
    simp only [validateLabelSafety]
    repeat' split
    all_goals simp
  have hd : ∀ e : Env, (validateDeviceSafety e).2 ≠ some Outcome.success := by
    intro e
    simp only [validateDeviceSafety]
    repeat' split
    all_goals simp
  cases s
  case validate =>
    cases h : (validateLabelSafety env).2 with
    | some o =>
      have hne := hv env
      simp only [stepFun, validateStep, andThen, h]
      intro hc
      rw [hc] at h
      exact hne h
    | none =>
      simp only [stepFun, validateStep, andThen, h]
      exact hd env
  case setupMountAndSymlink =>
    simp only [stepFun, setupMountAndSymlink]
    split
    · rename_i o heq
      intro hc
      exact symlinkReplace_noSuccess _ _ _ _ heq (Option.some.inj hc)
    · simp
  all_goals
    simp only [stepFun, generatePassphrase, confirmDestruction, unmountDrive, formatLuks,
      backupLuksHeader, openWithPassphrase, openWithKeyfile, openContainer, createFilesystem,
      createKeyfileEvents, addKeyfileToLuks, addFstabEntry, createSystemdService,
      cleanupStep, printSetupSummary]
  all_goals repeat' split
  all_goals simp

/-- When a step falls through, the number of passphrase-displaying log
lines it emitted is its static count: one for the generation step, one
for the summary, zero elsewhere. -/
theorem step_secretCount (s : Step) (env : Env) (h : (stepFun s env).2 = none) :
    ((stepFun s env).1.filter secretLog).length = secretLogsOf s := by
  have hm : ∀ mps : List String,
      ((mps.flatMap (fun mp =>
        [Event.log [Frag.lit ("Unmounting: " ++ mp)],
         Event.proc [[Frag.lit "umount"], [Frag.lit "-l"], [Frag.lit mp]] none])).filter
        secretLog) = [] := by
    intro mps
    induction mps with
    | nil => rfl
    | cons mp rest ih => simp [secretLog, mentionsSecret, frag_lit_beq_secret, ih]
  cases s
  case validate =>
    cases h2 : (validateLabelSafety env).2 with
    | some o =>
      simp [stepFun, validateStep, andThen, h2, List.filter_append,
        vls_secretFilter, secretLogsOf]
    | none =>
      simp [stepFun, validateStep, andThen, h2, List.filter_append,
        vls_secretFilter, vds_secretFilter, secretLogsOf]
  all_goals
    simp only [stepFun, generatePassphrase, confirmDestruction, unmountDrive, formatLuks,
      backupLuksHeader, openWithPassphrase, openWithKeyfile, openContainer, createFilesystem,
      createKeyfileEvents, addKeyfileToLuks, setupMountAndSymlink, addFstabEntry,
      createSystemdService, cleanupStep, printSetupSummary, secretLogsOf] at h ⊢
  all_goals repeat' split
  all_goals simp_all [secretLog, mentionsSecret, List.filter_append, hm, frag_lit_beq_secret]
  all_goals
    intro a x hx hpx ha
    rcases ha with ha | ha <;> subst ha <;> simp [frag_lit_beq_secret]

/-- A pointwise property of the trace of every step holds of the
assembled pipeline trace. -/
theorem runSeq_all (P : Event → Bool) (hstep : ∀ s env, ((stepFun s env).1.all P) = true)
    (env : Env) (l : List Step) : ((runSeq env l).1.all P) = true := by
  induction l with
  | nil => rfl
  | cons s rest ih =>
    cases hs : stepFun s env with
    | mk es oo =>
      cases oo with
      | some o =>
        have h2 := hstep s env
        rw [hs] at h2
        simpa [runSeq, hs] using h2
      | none =>
        have h2 := hstep s env
        rw [hs] at h2
        simp only [runSeq, hs, List.all_append]
        simp_all

/-- In a run that completes successfully, every step fell through, so
the passphrase-displaying log lines number exactly the sum of the
per-step static counts. -/
theorem runSeq_success_secretCount (env : Env) (l : List Step)
    (h : (runSeq env l).2 = Outcome.success) :
    ((runSeq env l).1.filter secretLog).length = (l.map secretLogsOf).sum := by
  induction l with
  | nil => simp [runSeq]
  | cons s rest ih =>
    cases hs : stepFun s env with
    | mk es oo =>
      cases oo with
      | some o =>
        exfalso
        have hne := step_noSuccess s env
        rw [hs] at hne
        simp only [runSeq, hs] at h
        exact hne (by rw [h])
      | none =>
        have hc := step_secretCount s env (by rw [hs])
        rw [hs] at hc
        simp only [runSeq, hs] at h ⊢
        simp only [List.filter_append, List.length_append, List.map_cons, List.sum_cons]
        rw [hc, ih h]

/-! ## Claim C2 -/

/-- C2 (amended): in every environment, no subprocess invocation ever
carries the passphrase in its argument vector (it travels only over
stdin), and a run that completes successfully displays the passphrase
in exactly two log lines — once right after generation and once in the
final summary (not once, as claimed; see `claim2_counterexample`). -/
theorem claim2_theorem (env : Env) :
    ((mainRun env).1.all argvSecretFree) = true ∧
    ((mainRun env).2 = Outcome.success →
      ((mainRun env).1.filter secretLog).length = 2) := by
  constructor
  · unfold mainRun
    repeat' split
    all_goals first
      | rfl
      | exact runSeq_all argvSecretFree step_argvSafe env mainSteps
  · unfold mainRun
    repeat' split
    all_goals intro hs
    all_goals first
      | (exfalso; simp at hs)
      | (rw [runSeq_success_secretCount env mainSteps hs]; decide)

set_option maxRecDepth 100000 in
/-- C2 counterexample: in the healthy run the passphrase is displayed
in two log lines, not one — the generation-time line
`Generated initial passphrase: ...` appears in the trace besides the
summary line, so the claim as stated is false. -/
theorem claim2_counterexample :
    ((mainRun envOk).1.filter secretLog).length = 2 ∧
    Event.log [Frag.lit "\nGenerated initial passphrase: ", Frag.secret] ∈ (mainRun envOk).1 ∧
    Event.log [Frag.lit "Passphrase (save it!):      ", Frag.secret] ∈ (mainRun envOk).1 :=
  ⟨by decide, by decide, by decide⟩

set_option maxRecDepth 100000 in
/-- C2 witness: the amended claim evaluated on the healthy run. -/
theorem claim2_witness :
    ((mainRun envOk).1.all argvSecretFree) = true ∧
    ((mainRun envOk).1.filter secretLog).length = 2 :=
  ⟨(claim2_theorem envOk).1, (claim2_theorem envOk).2 (by decide)⟩

/-! ## Claim C6 -/

/-- Label validation never invokes `cryptsetup luksFormat`. -/
theorem vls_noFormat (env : Env) :
    ((validateLabelSafety env).1.any (isCryptsetupCmd "luksFormat")) = false := by
  have hq : ([[Frag.lit "blkid"], [Frag.lit "-L"]] ==
      ([[Frag.lit "cryptsetup"], [Frag.lit "luksFormat"]] : List Msg)) = false := by decide
  simp only [validateLabelSafety]
  repeat' split
  all_goals simp [isCryptsetupCmd, hq]

/-- Device validation never invokes `cryptsetup luksFormat`. -/
theorem vds_noFormat (env : Env) :
    ((validateDeviceSafety env).1.any (isCryptsetupCmd "luksFormat")) = false := by
  have hq : ([[Frag.lit "cryptsetup"], [Frag.lit "isLuks"]] ==
      ([[Frag.lit "cryptsetup"], [Frag.lit "luksFormat"]] : List Msg)) = false := by decide
  simp only [validateDeviceSafety]
  repeat' split
  all_goals simp [isCryptsetupCmd, hq]

/-- The constructor-time validation never invokes the format
operation. -/
theorem validate_noFormat (env : Env) :
    ((validateStep env).1.any (isCryptsetupCmd "luksFormat")) = false := by
  cases h : (validateLabelSafety env).2 <;>
    simp [validateStep, andThen, h, List.any_append, vls_noFormat, vds_noFormat]

/-- When `lsblk` succeeds, `unmount_drive` falls through. -/
theorem unmount_fallthrough (env : Env) (hl : env.lsblkOk = true) :
    (unmountDrive env).2 = none := by
  simp only [unmountDrive, hl]
  repeat' split
  all_goals simp_all

/-- C6 (amended): in a run that reaches the confirmation gate, an
operator reply whose whitespace-stripped form differs from `YES` makes
the process exit with status 0 having never invoked
`cryptsetup luksFormat`; when the stripped reply equals `YES` (which the
literal `"  YES "` also achieves — see `claim6_counterexample`) the
format subprocess is invoked. -/
theorem claim6_theorem (env : Env) (hx : env.xpwAvailable = true) (hu : env.uid = 0)
    (hv : (validateStep env).2 = none) :
    (pyStrip env.confirmInput ≠ "YES" →
      (mainRun env).2 = Outcome.exited 0 "" ∧
      ((mainRun env).1.any (isCryptsetupCmd "luksFormat")) = false) ∧
    (pyStrip env.confirmInput = "YES" → env.lsblkOk = true →
      ((mainRun env).1.any (isCryptsetupCmd "luksFormat")) = true) := by
  have hfmt : (isCryptsetupCmd "luksFormat"
      (Event.proc [[Frag.lit "cryptsetup"], [Frag.lit "luksFormat"], [Frag.lit "--type"],
        [Frag.lit "luks2"], [Frag.lit "--batch-mode"], [Frag.lit env.dev]]
        (some [Frag.secret, Frag.lit "\n"]))) = true := by
    simp [isCryptsetupCmd]
  cases hval : validateStep env with
  | mk ves vo =>
    rw [hval] at hv
    simp only at hv
    subst hv
    have hves : ((validateStep env).1.any (isCryptsetupCmd "luksFormat")) = false :=
      validate_noFormat env
    rw [hval] at hves
    simp only at hves
    constructor
    · intro hc
      have hmain : mainRun env =
          (ves ++ ((generatePassphrase env).1 ++ (confirmDestruction env).1),
           Outcome.exited 0 "") := by
        simp only [mainRun, hx, hu, mainSteps, runSeq, stepFun, hval]
        simp only [generatePassphrase, hx, confirmDestruction]
        simp [bne_iff_ne, hc]
      rw [hmain]
      refine ⟨rfl, ?_⟩
      simp only [List.any_append, hves]
      simp only [generatePassphrase, hx, confirmDestruction]
      simp [bne_iff_ne, hc, isCryptsetupCmd]
    · intro hc hl
      cases hum : unmountDrive env with
      | mk ues uo =>
        have huo := unmount_fallthrough env hl
        rw [hum] at huo
        simp only at huo
        subst huo
        have hmain : (mainRun env).1 =
            ves ++ ((generatePassphrase env).1 ++ ((confirmDestruction env).1 ++ (ues ++
              ((formatLuks env).1 ++ (runSeq env [Step.backupLuksHeader,
                Step.openWithPassphrase, Step.createFilesystem, Step.createKeyfile,
                Step.addKeyfileToLuks, Step.openWithKeyfile, Step.setupMountAndSymlink,
                Step.addFstabEntry, Step.createSystemdService, Step.cleanup,
                Step.printSummary]).1)))) := by
          simp only [mainRun, hx, hu, mainSteps, runSeq, stepFun, hval, hum]
          simp only [generatePassphrase, hx, confirmDestruction, formatLuks]
          simp [bne_iff_ne, hc]
        rw [hmain]
        simp only [List.any_append, formatLuks]
        simp [hfmt]

set_option maxRecDepth 100000 in
/-- C6 counterexample: the reply `" YES"` is not the exact confirmation
literal, yet the run does not exit zero — it proceeds to a successful
completion and the `cryptsetup luksFormat` subprocess is invoked
(`input().strip()` discards the leading whitespace), so the claim as
stated is false. -/
theorem claim6_counterexample :
    pyStrip " YES" = "YES" ∧
    (" YES" : String) ≠ "YES" ∧
    (mainRun envSpacedYes).2 = Outcome.success ∧
    ((mainRun envSpacedYes).1.any (isCryptsetupCmd "luksFormat")) = true :=
  ⟨by decide, by decide, by decide, by decide⟩

set_option maxRecDepth 100000 in
/-- C6 witness: a declined gate (`"no"`) exits zero without formatting;
the literal `YES` formats. -/
theorem claim6_witness :
    ((mainRun { envOk with confirmInput := "no" }).2 = Outcome.exited 0 "" ∧
     ((mainRun { envOk with confirmInput := "no" }).1.any
       (isCryptsetupCmd "luksFormat")) = false) ∧
    ((mainRun envOk).1.any (isCryptsetupCmd "luksFormat")) = true :=
  ⟨(claim6_theorem { envOk with confirmInput := "no" } rfl rfl (by decide)).1 (by decide),
   (claim6_theorem envOk rfl rfl (by decide)).2 (by decide) rfl⟩
